import Mathlib

/-
Verification of the parametric airfoil-section generator of FoilCreator.py.

The Python source is embedded shallowly:
  * the NACA-code validation and parameter extraction (lines 33-39), with the
    builtin int() modelled on ASCII strings (whitespace stripping, an optional
    sign, decimal digits with underscores between digits);
  * the lift-center computation (lines 41-51) and the camber, slope and
    thickness formulas of the sampling loop (lines 62-95);
  * cosine sampling (lines 53-57) and the contour assembly (line 98);
  * the placement schedule get_scale (lines 162-169), get_skew_angle
    (lines 172-173) and end_point (lines 176-183).

Python floats are modelled as real numbers.  A call that raises is modelled
as Except.error (for the generator, whose ValueError and ZeroDivisionError
differ) or as Option.none (for math.sqrt of a negative argument inside
get_scale).
-/

namespace FoilCreator

/-! ### Model of the Python builtin int() on ASCII strings -/

def isPyWs (c : Char) : Bool :=
  c.toNat = 32 || c.toNat = 9 || c.toNat = 10 || c.toNat = 13 || c.toNat = 11 || c.toNat = 12

def isPyDigit (c : Char) : Bool :=
  48 ≤ c.toNat && c.toNat ≤ 57

def digitVal (c : Char) : Nat := c.toNat - 48

def goDigits : List Char → Nat → Option Nat
  | [], acc => some acc
  | c :: cs, acc =>
    if isPyDigit c then goDigits cs (acc * 10 + digitVal c)
    else if c.toNat = 95 then
      match cs with
      | [] => none
      | d :: ds => if isPyDigit d then goDigits ds (acc * 10 + digitVal d) else none
    else none

def pyUnsigned : List Char → Option Nat
  | [] => none
  | c :: cs => if isPyDigit c then goDigits cs (digitVal c) else none

def stripWs (s : List Char) : List Char :=
  ((s.dropWhile isPyWs).reverse.dropWhile isPyWs).reverse

def pyInt (s : List Char) : Option Int :=
  match stripWs s with
  | [] => none
  | c :: cs =>
    if c.toNat = 43 then (pyUnsigned cs).map (fun v => (v : Int))
    else if c.toNat = 45 then (pyUnsigned cs).map (fun v => -(v : Int))
    else (pyUnsigned (c :: cs)).map (fun v => (v : Int))

/-- Validation and parameter extraction of generate_naca_airfoil_coordinates
(lines 33-39): the length check, then int(naca[0]), int(naca[1]),
int(naca[2:]).  A None result models the ValueError path. -/
def decode (naca : List Char) : Option (Int × Int × Int) :=
  if naca.length = 4 then
    match pyInt (naca.take 1), pyInt ((naca.drop 1).take 1), pyInt (naca.drop 2) with
    | some a, some b, some c => some (a, b, c)
    | _, _, _ => none
  else none

theorem pyInt_sanity :
    pyInt ['+', '3'] = some 3 ∧ pyInt ['-', '5'] = some (-5) ∧
    pyInt [' ', '3'] = some 3 ∧ pyInt ['a'] = none ∧
    pyInt ['2', '4'] = some 24 := by decide

theorem decode_sanity :
    decode ['2', '4', '1', '2'] = some (2, 4, 12) ∧
    decode ['1', '2', '+', '3'] = some (1, 2, 3) ∧
    decode ['1', '2', 'x', '3'] = none := by decide

theorem pyInt_single_digit (c : Char) (h : isPyDigit c = true) :
    pyInt [c] = some ((digitVal c : Int)) := by
  have hb : 48 ≤ c.toNat ∧ c.toNat ≤ 57 := by simpa [isPyDigit] using h
  have hws : isPyWs c = false := by
    simp only [isPyWs, Bool.or_eq_false_iff, decide_eq_false_iff_not]
    omega
  have h43 : ¬ c.toNat = 43 := by omega
  have h45 : ¬ c.toNat = 45 := by omega
  simp [pyInt, stripWs, List.dropWhile, hws, h43, h45, pyUnsigned, h, goDigits]

theorem pyInt_two_digits (c d : Char) (hc : isPyDigit c = true) (hd : isPyDigit d = true) :
    pyInt [c, d] = some ((digitVal c * 10 + digitVal d : Nat) : Int) := by
  have hbc : 48 ≤ c.toNat ∧ c.toNat ≤ 57 := by simpa [isPyDigit] using hc
  have hbd : 48 ≤ d.toNat ∧ d.toNat ≤ 57 := by simpa [isPyDigit] using hd
  have hwsc : isPyWs c = false := by
    simp only [isPyWs, Bool.or_eq_false_iff, decide_eq_false_iff_not]
    omega
  have hwsd : isPyWs d = false := by
    simp only [isPyWs, Bool.or_eq_false_iff, decide_eq_false_iff_not]
    omega
  have h43 : ¬ c.toNat = 43 := by omega
  have h45 : ¬ c.toNat = 45 := by omega
  simp [pyInt, stripWs, List.dropWhile, hwsc, hwsd, h43, h45, pyUnsigned, hc, hd, goDigits]

theorem decode_digits (c0 c1 c2 c3 : Char)
    (h0 : isPyDigit c0 = true) (h1 : isPyDigit c1 = true)
    (h2 : isPyDigit c2 = true) (h3 : isPyDigit c3 = true) :
    decode [c0, c1, c2, c3] =
      some ((digitVal c0 : Int), (digitVal c1 : Int),
        ((digitVal c2 * 10 + digitVal c3 : Nat) : Int)) := by
  simp [decode, pyInt_single_digit c0 h0, pyInt_single_digit c1 h1,
    pyInt_two_digits c2 c3 h2 h3]

/-! ### Geometry of generate_naca_airfoil_coordinates -/

/-- The hardcoded chord fraction of the reference point (line 43). -/
noncomputable def x_lift : ℝ := 0.5

open Classical in
/-- Camber line y_c (lines 64-71). -/
noncomputable def y_c (m p x : ℝ) : ℝ :=
  if x < p ∧ p ≠ 0 then (m / (p * p)) * (2 * p * x - x * x)
  else if p ≠ 1 then (m / ((1 - p) * (1 - p))) * ((1 - 2 * p) + 2 * p * x - x * x)
  else 0

open Classical in
/-- Camber-line slope dyc_dx (lines 64-72). -/
noncomputable def dyc_dx (m p x : ℝ) : ℝ :=
  if x < p ∧ p ≠ 0 then (2 * m / (p * p)) * (p - x)
  else if p ≠ 1 then (2 * m / ((1 - p) * (1 - p))) * (p - x)
  else 0

open Classical in
/-- Reference-point ordinate y_lift (lines 44-51). -/
noncomputable def y_lift (m p : ℝ) : ℝ :=
  if x_lift < p ∧ p ≠ 0 then (m / (p * p)) * (2 * p * x_lift - x_lift * x_lift)
  else if p ≠ 1 then (m / ((1 - p) * (1 - p))) * ((1 - 2 * p) + 2 * p * x_lift - x_lift * x_lift)
  else 0

/-- Half-thickness y_t (lines 76-86). -/
noncomputable def y_t (t x : ℝ) : ℝ :=
  5 * t * (0.2969 * Real.sqrt x - 0.1260 * x - 0.3516 * (x * x)
    + 0.2843 * x ^ 3 - 0.1015 * x ^ 4)

/-- An upper-surface point, already re-centered (lines 89-90 and 94). -/
noncomputable def upper_point (m p t x : ℝ) : ℝ × ℝ :=
  (x - y_t t x * Real.sin (Real.arctan (dyc_dx m p x)) - x_lift,
   y_c m p x + y_t t x * Real.cos (Real.arctan (dyc_dx m p x)) - y_lift m p)

/-- A lower-surface point, already re-centered (lines 91-92 and 95). -/
noncomputable def lower_point (m p t x : ℝ) : ℝ × ℝ :=
  (x + y_t t x * Real.sin (Real.arctan (dyc_dx m p x)) - x_lift,
   y_c m p x - y_t t x * Real.cos (Real.arctan (dyc_dx m p x)) - y_lift m p)

/-- The i-th cosine-spaced sample (lines 55-56). -/
noncomputable def xSample (n i : ℕ) : ℝ :=
  0.5 * (1 - Real.cos (Real.pi * i / ((n : ℝ) - 1)))

/-- The sample list x_coords (lines 53-57). -/
noncomputable def x_coords (n : ℕ) : List ℝ :=
  (List.range n).map (xSample n)

/-- upper_points of the sampling loop (lines 59-94). -/
noncomputable def upper_points (m p t : ℝ) (n : ℕ) : List (ℝ × ℝ) :=
  (x_coords n).map (upper_point m p t)

/-- lower_points of the sampling loop (lines 60-95). -/
noncomputable def lower_points (m p t : ℝ) (n : ℕ) : List (ℝ × ℝ) :=
  (x_coords n).map (lower_point m p t)

/-- The assembled contour (line 98): upper points then reversed lower points. -/
noncomputable def airfoil_coords (m p t : ℝ) (n : ℕ) : List (ℝ × ℝ) :=
  upper_points m p t n ++ (lower_points m p t n).reverse

/-- The two ways generate_naca_airfoil_coordinates can raise: ValueError from
the length check or from int() (line 34 and lines 37-39), and
ZeroDivisionError from beta when num_points = 1 (line 55). -/
inductive GenError where
  | invalidCode : GenError
  | zeroDivision : GenError
deriving DecidableEq

/-- The whole generator (lines 23-100): validate and extract m, p, t, then
build the contour.  num_points = 1 divides by zero inside the sampling loop. -/
noncomputable def generate_naca_airfoil_coordinates (naca : List Char) (num_points : ℕ) :
    Except GenError (List (ℝ × ℝ)) :=
  match decode naca with
  | none => Except.error GenError.invalidCode
  | some (a, b, c) =>
    if num_points = 1 then Except.error GenError.zeroDivision
    else Except.ok (airfoil_coords ((a : ℝ) / 100) ((b : ℝ) / 10) ((c : ℝ) / 100) num_points)

/-- The decoded m parameter for a digit character, m = int(naca[0]) / 100. -/
noncomputable def mParam (c : Char) : ℝ := (digitVal c : ℝ) / 100

/-- The decoded p parameter for a digit character, p = int(naca[1]) / 10. -/
noncomputable def pParam (c : Char) : ℝ := (digitVal c : ℝ) / 10

/-- The decoded t parameter for digit characters, t = int(naca[2:]) / 100. -/
noncomputable def tParam (c d : Char) : ℝ := ((digitVal c * 10 + digitVal d : ℕ) : ℝ) / 100

/-! ### The placement schedule -/

open Classical in
/-- get_scale (lines 162-169).  The none result models the ValueError that
math.sqrt raises on a negative argument. -/
noncomputable def get_scale (fraction : ℝ) : Option ℝ :=
  if fraction < 0.6 then some (1.2 * (-(fraction - 0.6) ^ 2 + 1))
  else if (1 : ℝ) - (1 / (1 - 0.6) * (fraction - 0.6)) ^ 2 < 0 then none
  else some (1.2 * Real.sqrt (1 - (1 / (1 - 0.6) * (fraction - 0.6)) ^ 2))

/-- get_skew_angle (lines 172-173). -/
noncomputable def get_skew_angle (fraction : ℝ) : ℝ :=
  Real.pi * 1 / 2 * fraction

/-- The coordinates of the terminal tip point built by end_point
(lines 176-183). -/
noncomputable def end_point (skew_r : ℝ) : ℝ × ℝ × ℝ :=
  (0, skew_r - Real.cos (get_skew_angle 1) * skew_r,
   -Real.sin (get_skew_angle 1) * skew_r)

/-! ### Helper lemmas -/

theorem generate_digits (c0 c1 c2 c3 : Char) (n : ℕ)
    (h0 : isPyDigit c0 = true) (h1 : isPyDigit c1 = true)
    (h2 : isPyDigit c2 = true) (h3 : isPyDigit c3 = true) (hn : n ≠ 1) :
    generate_naca_airfoil_coordinates [c0, c1, c2, c3] n =
      Except.ok (airfoil_coords (mParam c0) (pParam c1) (tParam c2 c3) n) := by
  rw [generate_naca_airfoil_coordinates, decode_digits c0 c1 c2 c3 h0 h1 h2 h3]
  simp [hn, mParam, pParam, tParam]

theorem xSample_zero (n : ℕ) : xSample n 0 = 0 := by
  simp [xSample]

theorem xSample_last (n : ℕ) (hn : 2 ≤ n) : xSample n (n - 1) = 1 := by
  have h1 : ((n - 1 : ℕ) : ℝ) = (n : ℝ) - 1 := by
    have : (1 : ℕ) ≤ n := by omega
    push_cast [this]
    ring
  have hne : (n : ℝ) - 1 ≠ 0 := by
    have : (2 : ℝ) ≤ (n : ℝ) := by exact_mod_cast hn
    intro h
    linarith
  rw [xSample, h1, mul_div_assoc, div_self hne, mul_one, Real.cos_pi]
  norm_num

theorem y_t_zero (t : ℝ) : y_t t 0 = 0 := by
  rw [y_t, Real.sqrt_zero]
  ring

theorem upper_point_zero (m p t : ℝ) :
    upper_point m p t 0 = (-x_lift, y_c m p 0 - y_lift m p) := by
  rw [upper_point, y_t_zero]
  simp [Prod.ext_iff]

theorem lower_point_zero (m p t : ℝ) :
    lower_point m p t 0 = (-x_lift, y_c m p 0 - y_lift m p) := by
  rw [lower_point, y_t_zero]
  simp [Prod.ext_iff]

theorem y_c_m_eq_zero (p x : ℝ) : y_c 0 p x = 0 := by
  rw [y_c]
  split_ifs <;> simp

theorem dyc_dx_m_eq_zero (p x : ℝ) : dyc_dx 0 p x = 0 := by
  rw [dyc_dx]
  split_ifs <;> norm_num

theorem y_lift_m_eq_zero (p : ℝ) : y_lift 0 p = 0 := by
  rw [y_lift]
  split_ifs <;> simp

theorem length_airfoil_coords (m p t : ℝ) (n : ℕ) :
    (airfoil_coords m p t n).length = 2 * n := by
  simp [airfoil_coords, upper_points, lower_points, x_coords]
  omega

theorem airfoil_head (m p t : ℝ) (n : ℕ) (hn : 1 ≤ n) :
    (airfoil_coords m p t n).head? = some (upper_point m p t 0) := by
  obtain ⟨k, rfl⟩ : ∃ k, n = k + 1 := ⟨n - 1, by omega⟩
  rw [airfoil_coords, upper_points, x_coords, List.range_succ_eq_map]
  simp [xSample_zero]

theorem airfoil_getLast (m p t : ℝ) (n : ℕ) (hn : 1 ≤ n) :
    (airfoil_coords m p t n).getLast? = some (lower_point m p t 0) := by
  obtain ⟨k, rfl⟩ : ∃ k, n = k + 1 := ⟨n - 1, by omega⟩
  rw [airfoil_coords]
  rw [List.getLast?_append_of_ne_nil _ (by simp [lower_points, x_coords])]
  rw [List.getLast?_reverse]
  rw [lower_points, x_coords, List.range_succ_eq_map]
  simp [xSample_zero]

theorem airfoil_getElem_upper (m p t : ℝ) (n i : ℕ) (hi : i < n) :
    (airfoil_coords m p t n)[i]? = some (upper_point m p t (xSample n i)) := by
  rw [airfoil_coords]
  rw [List.getElem?_append_left (by simp [upper_points, x_coords]; omega)]
  rw [upper_points, x_coords]
  simp [List.getElem?_map, List.getElem?_range hi]

theorem scale_sqrt_arg_neg_iff (g : ℝ) (hg : (0.6 : ℝ) ≤ g) :
    (1 : ℝ) - (1 / (1 - 0.6) * (g - 0.6)) ^ 2 < 0 ↔ 1 < g := by
  have e : (1 : ℝ) - (1 / (1 - 0.6) * (g - 0.6)) ^ 2 = 1 - (5 / 2 * (g - 3 / 5)) ^ 2 := by
    norm_num
  have hg5 : (3 : ℝ) / 5 ≤ g := by
    norm_num at hg
    exact hg
  rw [e]
  constructor
  · intro h
    by_contra hc
    push_neg at hc
    nlinarith [mul_nonneg (show (0 : ℝ) ≤ g - 3 / 5 by linarith)
      (show (0 : ℝ) ≤ 1 - g by linarith)]
  · intro h
    nlinarith [mul_pos (show (0 : ℝ) < g - 1 by linarith)
      (show (0 : ℝ) < g - 1 / 5 by linarith)]

theorem get_scale_eq_none_iff (f : ℝ) : get_scale f = none ↔ 1 < f := by
  rw [get_scale]
  by_cases h1 : f < 0.6
  · rw [if_pos h1]
    have hnot : ¬ (1 : ℝ) < f := by
      norm_num at h1 ⊢
      linarith
    simp [hnot]
  · rw [if_neg h1]
    push_neg at h1
    by_cases h2 : (1 : ℝ) - (1 / (1 - 0.6) * (f - 0.6)) ^ 2 < 0
    · rw [if_pos h2]
      simp [(scale_sqrt_arg_neg_iff f h1).mp h2]
    · rw [if_neg h2]
      have hnot : ¬ 1 < f := fun hgt => h2 ((scale_sqrt_arg_neg_iff f h1).mpr hgt)
      simp [hnot]

/-! ### Claim theorems -/

/-- C1 (counterexample): the decoded parameters of the valid code 1012 have
second digit 0, yet the camber formula of the code evaluates to 1/100, not 0,
at the sampled chord position x = 0 (the sample of index 0): with p = 0 the
code takes the aft-formula branch, which vanishes only when m = 0. -/
theorem c1_counterexample :
    decode ['1', '0', '1', '2'] = some (1, 0, 12) ∧
    mParam '1' = 1 / 100 ∧ pParam '0' = 0 ∧ xSample 2 0 = 0 ∧
    y_c (mParam '1') (pParam '0') (xSample 2 0) = 1 / 100 ∧ ((1 : ℝ) / 100) ≠ 0 := by
  have e1 : digitVal '1' = 1 := by decide
  have e0 : digitVal '0' = 0 := by decide
  have hm : mParam '1' = 1 / 100 := by
    rw [mParam, e1]
    norm_num
  have hp : pParam '0' = 0 := by
    rw [pParam, e0]
    norm_num
  have hx : xSample 2 0 = 0 := xSample_zero 2
  refine ⟨by decide, hm, hp, hx, ?_, by norm_num⟩
  rw [hm, hp, hx, y_c]
  norm_num

/-- C1 (amended): a valid 4-digit code whose first AND second digits are both
0 (so m = 0) produces a symmetric airfoil: the camber line and its slope are
identically zero at every chord position, hence at every sampled x.  (The
claim as stated fails: for p = 0 the code computes the aft camber formula
m * (1 - x * x), which is nonzero whenever m is nonzero.) -/
theorem c1_symmetric_camber (c2 c3 : Char)
    (h2 : isPyDigit c2 = true) (h3 : isPyDigit c3 = true) (x : ℝ) :
    decode ['0', '0', c2, c3] =
      some (0, 0, ((digitVal c2 * 10 + digitVal c3 : ℕ) : ℤ)) ∧
    mParam '0' = 0 ∧ pParam '0' = 0 ∧
    y_c (mParam '0') (pParam '0') x = 0 ∧ dyc_dx (mParam '0') (pParam '0') x = 0 := by
  have e0 : digitVal '0' = 0 := by decide
  have hm : mParam '0' = 0 := by
    rw [mParam, e0]
    norm_num
  have hp : pParam '0' = 0 := by
    rw [pParam, e0]
    norm_num
  have hdigit0 : isPyDigit '0' = true := by decide
  refine ⟨?_, hm, hp, ?_, ?_⟩
  · rw [decode_digits '0' '0' c2 c3 hdigit0 hdigit0 h2 h3, e0]
    norm_num
  · rw [hm]
    exact y_c_m_eq_zero _ x
  · rw [hm]
    exact dyc_dx_m_eq_zero _ x

/-- C1 (witness): the amended claim instantiated at the code 0012 and x = 0. -/
theorem c1_symmetric_camber_witness :
    decode ['0', '0', '1', '2'] =
      some (0, 0, ((digitVal '1' * 10 + digitVal '2' : ℕ) : ℤ)) ∧
    mParam '0' = 0 ∧ pParam '0' = 0 ∧
    y_c (mParam '0') (pParam '0') 0 = 0 ∧ dyc_dx (mParam '0') (pParam '0') 0 = 0 :=
  c1_symmetric_camber '1' '2' (by decide) (by decide) 0

/-- C2 (counterexample): for the valid code 0012 with numPoints = 2 the first
contour point is the re-centered leading-edge point (-(1/2), 0); its chord
position before re-centering is -(1/2) + x_lift = 0, the leading edge, and
not 1, the trailing edge. -/
theorem c2_counterexample :
    ∃ l, generate_naca_airfoil_coordinates ['0', '0', '1', '2'] 2 = Except.ok l ∧
      l.head? = some (-(1 / 2), 0) ∧
      (-(1 / 2) : ℝ) + x_lift = 0 ∧ ((-(1 / 2) : ℝ) + x_lift) ≠ 1 := by
  have e0 : digitVal '0' = 0 := by decide
  have hm : mParam '0' = 0 := by
    rw [mParam, e0]
    norm_num
  have hp : pParam '0' = 0 := by
    rw [pParam, e0]
    norm_num
  have hxl : x_lift = 1 / 2 := by
    rw [x_lift]
    norm_num
  refine ⟨airfoil_coords (mParam '0') (pParam '0') (tParam '1' '2') 2,
    generate_digits '0' '0' '1' '2' 2 (by decide) (by decide) (by decide) (by decide)
      (by omega), ?_, by rw [hxl]; norm_num, by rw [hxl]; norm_num⟩
  rw [airfoil_head _ _ _ 2 (by omega), upper_point_zero, hm, hp,
    y_c_m_eq_zero, y_lift_m_eq_zero, hxl]
  norm_num

/-- C2 (amended): for every valid 4-digit code and numPoints at least 2, the
contour returned by generate is the upper-surface sequence (running from the
leading edge x = 0 to the trailing edge x = 1) concatenated with the reversed
lower-surface sequence, and its first and last points both lie at the LEADING
edge (the x = 0 end of the chord, before re-centering), not the trailing
edge. -/
theorem c2_contour_structure (c0 c1 c2 c3 : Char) (n : ℕ)
    (h0 : isPyDigit c0 = true) (h1 : isPyDigit c1 = true)
    (h2 : isPyDigit c2 = true) (h3 : isPyDigit c3 = true) (hn : 2 ≤ n) :
    generate_naca_airfoil_coordinates [c0, c1, c2, c3] n =
      Except.ok (upper_points (mParam c0) (pParam c1) (tParam c2 c3) n ++
        (lower_points (mParam c0) (pParam c1) (tParam c2 c3) n).reverse) ∧
    xSample n 0 = 0 ∧ xSample n (n - 1) = 1 ∧
    (airfoil_coords (mParam c0) (pParam c1) (tParam c2 c3) n).head? =
      some (upper_point (mParam c0) (pParam c1) (tParam c2 c3) 0) ∧
    (airfoil_coords (mParam c0) (pParam c1) (tParam c2 c3) n).getLast? =
      some (lower_point (mParam c0) (pParam c1) (tParam c2 c3) 0) ∧
    (upper_point (mParam c0) (pParam c1) (tParam c2 c3) 0).1 + x_lift = 0 ∧
    (lower_point (mParam c0) (pParam c1) (tParam c2 c3) 0).1 + x_lift = 0 := by
  refine ⟨generate_digits c0 c1 c2 c3 n h0 h1 h2 h3 (by omega),
    xSample_zero n, xSample_last n hn,
    airfoil_head _ _ _ n (by omega), airfoil_getLast _ _ _ n (by omega), ?_, ?_⟩
  · rw [upper_point_zero]
    ring
  · rw [lower_point_zero]
    ring

/-- C2 (witness): the amended claim instantiated at the code 0012 and
numPoints = 2. -/
theorem c2_contour_structure_witness :
    generate_naca_airfoil_coordinates ['0', '0', '1', '2'] 2 =
      Except.ok (upper_points (mParam '0') (pParam '0') (tParam '1' '2') 2 ++
        (lower_points (mParam '0') (pParam '0') (tParam '1' '2') 2).reverse) ∧
    xSample 2 0 = 0 ∧ xSample 2 (2 - 1) = 1 ∧
    (airfoil_coords (mParam '0') (pParam '0') (tParam '1' '2') 2).head? =
      some (upper_point (mParam '0') (pParam '0') (tParam '1' '2') 0) ∧
    (airfoil_coords (mParam '0') (pParam '0') (tParam '1' '2') 2).getLast? =
      some (lower_point (mParam '0') (pParam '0') (tParam '1' '2') 0) ∧
    (upper_point (mParam '0') (pParam '0') (tParam '1' '2') 0).1 + x_lift = 0 ∧
    (lower_point (mParam '0') (pParam '0') (tParam '1' '2') 0).1 + x_lift = 0 :=
  c2_contour_structure '0' '0' '1' '2' 2 (by decide) (by decide) (by decide) (by decide)
    (by omega)

/-- C3: for every valid 4-digit code and every numPoints at least 2, generate
succeeds and returns exactly 2 * numPoints points, the first numPoints of
which are the upper-surface points at the cosine-spaced samples
x = 0.5 * (1 - cos (pi * i / (numPoints - 1))) for i in [0, numPoints). -/
theorem c3_generate_success (c0 c1 c2 c3 : Char) (n : ℕ)
    (h0 : isPyDigit c0 = true) (h1 : isPyDigit c1 = true)
    (h2 : isPyDigit c2 = true) (h3 : isPyDigit c3 = true) (hn : 2 ≤ n) :
    ∃ l, generate_naca_airfoil_coordinates [c0, c1, c2, c3] n = Except.ok l ∧
      l.length = 2 * n ∧
      ∀ i : ℕ, i < n →
        l[i]? = some (upper_point (mParam c0) (pParam c1) (tParam c2 c3)
          (0.5 * (1 - Real.cos (Real.pi * (i : ℝ) / ((n : ℝ) - 1))))) := by
  refine ⟨airfoil_coords (mParam c0) (pParam c1) (tParam c2 c3) n,
    generate_digits c0 c1 c2 c3 n h0 h1 h2 h3 (by omega),
    length_airfoil_coords _ _ _ n, ?_⟩
  intro i hi
  rw [airfoil_getElem_upper _ _ _ n i hi]
  rfl

/-- C3 (witness): the claim instantiated at the code 0012 and numPoints = 2. -/
theorem c3_generate_success_witness :
    ∃ l, generate_naca_airfoil_coordinates ['0', '0', '1', '2'] 2 = Except.ok l ∧
      l.length = 2 * 2 ∧
      ∀ i : ℕ, i < 2 →
        l[i]? = some (upper_point (mParam '0') (pParam '0') (tParam '1' '2')
          (0.5 * (1 - Real.cos (Real.pi * (i : ℝ) / ((2 : ℝ) - 1))))) :=
  c3_generate_success '0' '0' '1' '2' 2 (by decide) (by decide) (by decide) (by decide)
    (by omega)

/-- C4 (counterexample): the fraction -1 lies outside [0, 1), yet get_scale
silently returns the value -(234/125) through the parabolic branch instead of
signalling DomainError. -/
theorem c4_counterexample :
    ((-1 : ℝ) < 0) ∧ get_scale (-1) = some (-(234 / 125)) := by
  refine ⟨by norm_num, ?_⟩
  rw [get_scale, if_pos (by norm_num)]
  norm_num

/-- C4 (amended): get_scale signals DomainError exactly for fraction > 1.  A
negative fraction is silently accepted by the parabolic branch, and
fraction = 1 returns 0 through the elliptic branch. -/
theorem c4_scale_error_iff (f : ℝ) : get_scale f = none ↔ 1 < f :=
  get_scale_eq_none_iff f

/-- C5: get_scale is the stated piecewise function, the two pieces agree at
fraction 0.6 where both evaluate to 1.2 exactly, and get_scale 1 = 0
exactly. -/
theorem c5_scale_piecewise :
    (∀ f : ℝ, f < 0.6 → get_scale f = some (1.2 * (1 - (f - 0.6) ^ 2))) ∧
    (∀ f : ℝ, 0.6 ≤ f → f ≤ 1 →
      get_scale f = some (1.2 * Real.sqrt (1 - ((f - 0.6) / 0.4) ^ 2))) ∧
    (1.2 : ℝ) * (1 - ((0.6 : ℝ) - 0.6) ^ 2) = 1.2 ∧
    get_scale 0.6 = some 1.2 ∧
    get_scale 1 = some 0 := by
  have harg : ∀ f : ℝ, (1 : ℝ) - (1 / (1 - 0.6) * (f - 0.6)) ^ 2 =
      1 - ((f - 0.6) / 0.4) ^ 2 := by
    intro f
    norm_num
    ring
  refine ⟨?_, ?_, by norm_num, ?_, ?_⟩
  · intro f hf
    rw [get_scale, if_pos hf]
    congr 1
    ring
  · intro f h0 h1
    rw [get_scale, if_neg (not_lt.mpr h0),
      if_neg (fun hc => by
        have := (scale_sqrt_arg_neg_iff f h0).mp hc
        linarith), harg f]
  · rw [get_scale, if_neg (by norm_num), if_neg (by norm_num)]
    norm_num
  · rw [get_scale, if_neg (by norm_num), if_neg (by norm_num)]
    norm_num

/-- C5 (witness): the parabolic piece evaluated at fraction 0 together with
the exact value at fraction 1. -/
theorem c5_scale_piecewise_witness :
    get_scale 0 = some (1.2 * (1 - ((0 : ℝ) - 0.6) ^ 2)) ∧ get_scale 1 = some 0 :=
  ⟨c5_scale_piecewise.1 0 (by norm_num), c5_scale_piecewise.2.2.2.2⟩

/-- C6: for every fraction > 1 get_scale signals the domain error of the
negative square-root argument (modelled as none) and returns no value. -/
theorem c6_scale_domain_error (f : ℝ) (hf : 1 < f) : get_scale f = none :=
  (get_scale_eq_none_iff f).mpr hf

/-- C6 (witness): the claim instantiated at fraction 2. -/
theorem c6_scale_domain_error_witness : (1 : ℝ) < 2 ∧ get_scale 2 = none :=
  ⟨by norm_num, c6_scale_domain_error 2 (by norm_num)⟩

/-- C7 (counterexample): the code 12+3 is 4 characters long and contains the
non-digit character +, yet generate accepts it (Python int accepts a leading
sign), so the failure set is not exactly the claimed one. -/
theorem c7_counterexample :
    isPyDigit '+' = false ∧ (['1', '2', '+', '3'] : List Char).length = 4 ∧
    ∃ l, generate_naca_airfoil_coordinates ['1', '2', '+', '3'] 2 = Except.ok l := by
  have hd : decode ['1', '2', '+', '3'] = some (1, 2, 3) := by decide
  refine ⟨by decide, by decide, ?_⟩
  rw [generate_naca_airfoil_coordinates, hd]
  refine ⟨airfoil_coords ((1 : ℤ) / 100 : ℝ) (((2 : ℤ) : ℝ) / 10) (((3 : ℤ) : ℝ) / 100) 2, ?_⟩
  norm_num

/-- C7 (amended): generate fails with InvalidCodeError exactly when the code
is not exactly 4 characters long or one of the three int conversions (of the
first character, the second character, and the last two characters) fails;
this is weaker than rejecting every non-digit character, since int accepts
signs and surrounding whitespace. -/
theorem c7_invalid_code_iff (naca : List Char) (n : ℕ) :
    generate_naca_airfoil_coordinates naca n = Except.error GenError.invalidCode ↔
      (naca.length ≠ 4 ∨ pyInt (naca.take 1) = none ∨
        pyInt ((naca.drop 1).take 1) = none ∨ pyInt (naca.drop 2) = none) := by
  have hgen : generate_naca_airfoil_coordinates naca n = Except.error GenError.invalidCode ↔
      decode naca = none := by
    rw [generate_naca_airfoil_coordinates]
    cases hd : decode naca with
    | none => simp
    | some abc =>
      obtain ⟨a, b, c⟩ := abc
      by_cases hn : n = 1 <;> simp [hn]
  rw [hgen, decode]
  by_cases hl : naca.length = 4
  · rw [if_pos hl]
    cases ha : pyInt (naca.take 1) <;>
      cases hb : pyInt ((naca.drop 1).take 1) <;>
      cases hc : pyInt (naca.drop 2) <;>
      simp [hl]
  · rw [if_neg hl]
    simp [hl]

/-- An upper-surface point before the re-centering subtraction, named after
the claim that every generated point is translated by the reference point. -/
noncomputable def upper_point_raw (m p t x : ℝ) : ℝ × ℝ :=
  (x - y_t t x * Real.sin (Real.arctan (dyc_dx m p x)),
   y_c m p x + y_t t x * Real.cos (Real.arctan (dyc_dx m p x)))

/-- A lower-surface point before the re-centering subtraction. -/
noncomputable def lower_point_raw (m p t x : ℝ) : ℝ × ℝ :=
  (x + y_t t x * Real.sin (Real.arctan (dyc_dx m p x)),
   y_c m p x - y_t t x * Real.cos (Real.arctan (dyc_dx m p x)))

/-- C8: the reference point is computed once at the hardcoded chord fraction
x_lift = 0.5 with the same camber-line formula y_c (independently of
numPoints, as y_lift takes no numPoints argument), and the contour equals the
raw un-centered contour with (x_lift, y_lift) subtracted from every upper and
lower point. -/
theorem c8_recentering (m p t : ℝ) (n : ℕ) :
    x_lift = 0.5 ∧ y_lift m p = y_c m p x_lift ∧
    airfoil_coords m p t n =
      (((x_coords n).map (upper_point_raw m p t)) ++
        ((x_coords n).map (lower_point_raw m p t)).reverse).map
        (fun q => (q.1 - x_lift, q.2 - y_lift m p)) := by
  refine ⟨rfl, rfl, ?_⟩
  rw [airfoil_coords, upper_points, lower_points, List.map_append,
    List.map_reverse, List.map_map, List.map_map]
  rfl

/-- C9: terminalTipPoint evaluates the skew angle at fraction 1 to pi/2 and
returns (0, r - cos(pi/2) * r, -sin(pi/2) * r) = (0, r, -r); in particular it
returns (0, 2, -2) for skew radius 2. -/
theorem c9_end_point (r : ℝ) :
    get_skew_angle 1 = Real.pi / 2 ∧
    end_point r = (0, r - Real.cos (Real.pi / 2) * r, -Real.sin (Real.pi / 2) * r) ∧
    end_point r = (0, r, -r) ∧
    end_point 2 = ((0 : ℝ), (2 : ℝ), (-2 : ℝ)) := by
  have hang : get_skew_angle 1 = Real.pi / 2 := by
    rw [get_skew_angle]
    ring
  refine ⟨hang, by rw [end_point, hang], ?_, ?_⟩
  · rw [end_point, hang, Real.cos_pi_div_two, Real.sin_pi_div_two]
    norm_num
  · rw [end_point, hang, Real.cos_pi_div_two, Real.sin_pi_div_two]
    norm_num

/-- C10: for every valid 4-digit code and numPoints at least 2, the first and
last contour points are exactly equal: both are the re-centered leading-edge
point (the x = 0 sample, whose first coordinate is 0 - x_lift and where the
half-thickness y_t vanishes), so the closing point of the loop is literally
duplicated at the leading edge. -/
theorem c10_closing_point (c0 c1 c2 c3 : Char) (n : ℕ)
    (h0 : isPyDigit c0 = true) (h1 : isPyDigit c1 = true)
    (h2 : isPyDigit c2 = true) (h3 : isPyDigit c3 = true) (hn : 2 ≤ n) :
    ∃ l, generate_naca_airfoil_coordinates [c0, c1, c2, c3] n = Except.ok l ∧
      l.head? = l.getLast? ∧
      l.head? = some (upper_point (mParam c0) (pParam c1) (tParam c2 c3) 0) ∧
      upper_point (mParam c0) (pParam c1) (tParam c2 c3) 0 =
        lower_point (mParam c0) (pParam c1) (tParam c2 c3) 0 ∧
      y_t (tParam c2 c3) 0 = 0 ∧
      (upper_point (mParam c0) (pParam c1) (tParam c2 c3) 0).1 = 0 - x_lift := by
  have hupper := upper_point_zero (mParam c0) (pParam c1) (tParam c2 c3)
  have hlower := lower_point_zero (mParam c0) (pParam c1) (tParam c2 c3)
  refine ⟨airfoil_coords (mParam c0) (pParam c1) (tParam c2 c3) n,
    generate_digits c0 c1 c2 c3 n h0 h1 h2 h3 (by omega), ?_,
    airfoil_head _ _ _ n (by omega), hupper.trans hlower.symm,
    y_t_zero (tParam c2 c3), ?_⟩
  · rw [airfoil_head _ _ _ n (by omega), airfoil_getLast _ _ _ n (by omega),
      hupper.trans hlower.symm]
  · rw [hupper]
    ring

/-- C10 (witness): the claim instantiated at the code 0012 and
numPoints = 2. -/
theorem c10_closing_point_witness :
    ∃ l, generate_naca_airfoil_coordinates ['0', '0', '1', '2'] 2 = Except.ok l ∧
      l.head? = l.getLast? ∧
      l.head? = some (upper_point (mParam '0') (pParam '0') (tParam '1' '2') 0) ∧
      upper_point (mParam '0') (pParam '0') (tParam '1' '2') 0 =
        lower_point (mParam '0') (pParam '0') (tParam '1' '2') 0 ∧
      y_t (tParam '1' '2') 0 = 0 ∧
      (upper_point (mParam '0') (pParam '0') (tParam '1' '2') 0).1 = 0 - x_lift :=
  c10_closing_point '0' '0' '1' '2' 2 (by decide) (by decide) (by decide) (by decide)
    (by omega)

end FoilCreator
